import Mathlib

/-!
Verification of the book-recommendation script `src/BookRecommendation.py`
(repository NLP-Book-Match).

Modelling conventions used throughout this file:

* Python `str` is Lean `String`; `str.lower()` is modelled character-wise by
  `lowerStr` (the codepoints of `'A'..'Z'` are shifted by 32, every other
  character is kept), which agrees with CPython on the ASCII fragment the
  catalog and queries live in.  The Python substring test `a in b` is
  `isSubOf a.data b.data`.
* The pandas frame `data` is a `List Book` in row order; `data.index` is the
  list of `bookId` fields in the same order (`ids`).  The CSV stage
  `pd.read_csv("book_data.csv", index_col="bookId", usecols=cols).dropna()`
  is modelled on raw rows with `Option` fields: `index_col` moves `bookId`
  out of the columns *before* `dropna`, and `DataFrame.dropna` only inspects
  column values, never the index, so the filter checks the seven remaining
  columns.
* `TfidfVectorizer` and `cosine_similarity` are sklearn library calls, not
  code of this repository.  The TF-IDF matrix is therefore an input of the
  model (`Library.tfidf`, one row of nonnegative rationals per record), and
  cosine similarity is compared through its square
  `cosSq u v = (dot u v)^2 / (dot u u * dot v v)`, a strictly monotone
  recoding of the cosine for vectors with nonnegative entries (TF-IDF weights
  are nonnegative) that maps zero rows to similarity 0 exactly as sklearn's
  `cosine_similarity` does; rankings and ties are therefore preserved.
* Python's `sorted(..., key=lambda x: x[1], reverse=True)` is a stable
  descending sort; `List.insertionSort simDesc` is stable in the same sense
  (an element is inserted in front of later-coming elements with an equal
  key), so both produce the identical list.
* Python exceptions are `Except PyErr`; `print` output is collected in a
  `List String`; the `input()` stream is a `List String` and the interactive
  recursion of `name_to_bookId` is fuelled by a `Nat` (exhausted fuel models
  Python's `RecursionError`, which the function's own `try/except` turns into
  the message `"Invalid input."` and a `None` result).
-/

/-- Python exception kinds raised by the script. -/
inductive PyErr where
  | keyError
  | indexError
  | unboundLocalError
deriving DecidableEq, Repr

/-- One character of `str.lower()` (CPython shifts `'A'..'Z'` by 32, ASCII). -/
def charLower (c : Char) : Char :=
  if 65 ≤ c.toNat ∧ c.toNat ≤ 90 then Char.ofNat (c.toNat + 32) else c

/-- Python `s.lower()` on the ASCII fragment. -/
def lowerStr (s : String) : String :=
  ⟨s.data.map charLower⟩

/-- Python list/str containment `needle in hay` (contiguous substring). -/
def isSubOf (needle : List Char) : List Char → Bool
  | [] => needle.isEmpty
  | c :: rest => needle.isPrefixOf (c :: rest) || isSubOf needle rest

/-- Case-insensitive substring test `needle.lower() in hay.lower()`, the
matching predicate of `get_possible_books` and of
`data['title'].str.contains(book_name, case=False)` (the queries in scope
contain no regex metacharacters, so `str.contains` is a plain substring
search). -/
def substrLower (needle hay : String) : Bool :=
  isSubOf (lowerStr needle).data (lowerStr hay).data

/-- One loaded catalog record (one row of `data`; `bookId` is the index
entry).  All fields are plain strings: `rating` is only ever displayed, so
its numeric reading is irrelevant here. -/
structure Book where
  bookId : String
  author : String
  title : String
  rating : String
  description : String
  isbn : String
  genres : String
  coverImg : String
deriving DecidableEq, Repr

/-- One raw CSV row restricted to `usecols`; a `none` field is a missing
value (pandas `NaN`). -/
structure RawRow where
  bookId : Option String
  author : Option String
  title : Option String
  rating : Option String
  description : Option String
  isbn : Option String
  genres : Option String
  coverImg : Option String
deriving DecidableEq, Repr

/-- `DataFrame.dropna()` after `index_col="bookId"`: pandas drops a row when
any *column* value is missing; the index (`bookId`) is not a column at that
point and is not inspected. -/
def dropna (rows : List RawRow) : List RawRow :=
  rows.filter fun r =>
    r.author.isSome && r.title.isSome && r.rating.isSome &&
    r.description.isSome && r.isbn.isSome && r.genres.isSome && r.coverImg.isSome

/-- The loaded catalog
`data = pd.read_csv("book_data.csv", index_col="bookId", usecols=cols).dropna()`. -/
def loadData (rows : List RawRow) : List RawRow :=
  dropna rows

/-- A raw row with every one of the eight required fields present. -/
def fullyPopulated (r : RawRow) : Bool :=
  r.bookId.isSome && r.author.isSome && r.title.isSome && r.rating.isSome &&
  r.description.isSome && r.isbn.isSome && r.genres.isSome && r.coverImg.isSome

/-- The seven non-index columns of a raw row are present. -/
def columnsPopulated (r : RawRow) : Bool :=
  r.author.isSome && r.title.isSome && r.rating.isSome &&
  r.description.isSome && r.isbn.isSome && r.genres.isSome && r.coverImg.isSome

/-- The in-memory state after startup: the loaded catalog rows plus the
TF-IDF matrix `tfidf_matrix` built by the (external) vectorizer, one row per
record, aligned positionally. -/
structure Library where
  books : List Book
  tfidf : List (List ℚ)

/-- `data.index` in row order. -/
def ids (lib : Library) : List String :=
  lib.books.map Book.bookId

/-- Result values of `correct_name`: Python returns `None` (implicit
fall-through on an exact match), the int `0`, the int `1`, or a title
string. -/
inductive CNRes where
  | retNone
  | ret0
  | ret1
  | retName (s : String)
deriving DecidableEq, Repr

/-- `get_possible_books`: the titles containing the (lowered) query as a
case-insensitive substring, in catalog order. -/
def get_possible_books (books : List Book) (book : String) : List String :=
  (books.filter fun b => substrLower book b.title).map Book.title

/-- `correct_name`, returning the Python result value together with the lines
it prints. -/
def correct_name (books : List Book) (book_name : String) : CNRes × List String :=
  if book_name ∈ books.map (fun b => lowerStr b.title) then (.retNone, [])
  else
    match get_possible_books books book_name with
    | [p] => (.retName p, [])
    | [] => (.ret0, ["Book not found!"])
    | ps => (.ret1, ["Book not found!", "Did you mean: "] ++ ps)

/-- The `while not book_name: book_name = input("Book: ")` loop: skip empty
input lines; `none` is an exhausted stream (`input()` raising `EOFError`). -/
def readLine : List String → Option (String × List String)
  | [] => none
  | s :: rest => if s = "" then readLine rest else some (s, rest)

/-- One body of `name_to_bookId` with the recursive self-call abstracted as
`recur` (the source calls `name_to_bookId()` on an ambiguous outcome and
*discards* its value, so only the recursion's console output survives in the
caller).  Returns the Python return value and the printed lines; catching
`except:` turns both the empty input stream and the failing `index[0]`
lookup into the `"Invalid input."` message with a `None` result. -/
def resolve_core (books : List Book) (name1 : String) (stdin1 : List String)
    (recur : List String → Option String × List String) : Option String × List String :=
  let q := lowerStr name1
  let r1 := correct_name books q
  if r1.1 = CNRes.ret0 then (none, q :: r1.2)
  else
    let r2 := correct_name books q
    let recPart := if r2.1 = CNRes.ret1 then recur stdin1 else ((none : Option String), ([] : List String))
    match books.filter (fun b => substrLower q b.title) with
    | [] => (none, q :: (r1.2 ++ r2.2 ++ recPart.2 ++ ["Invalid input."]))
    | b :: _ => (some b.bookId, q :: (r1.2 ++ r2.2 ++ recPart.2))

def resolve_step (books : List Book) (stdin : List String) (book_name : Option String)
    (recur : List String → Option String × List String) : Option String × List String :=
  match (match book_name with
         | some s => if s = "" then readLine stdin else some (s, stdin)
         | none => readLine stdin) with
  | none => (none, ["Invalid input."])
  | some (name1, stdin1) => resolve_core books name1 stdin1 recur

/-- `name_to_bookId`, fuelled: at fuel `0` a further interactive recursion is
modelled as Python's `RecursionError` caught by the callee's own
`try/except` (value `None`, message `"Invalid input."`). -/
def name_to_bookId (books : List Book) : Nat → List String → Option String → Option String × List String
  | 0, stdin, book_name =>
    resolve_step books stdin book_name fun _ => (none, ["Invalid input."])
  | fuel + 1, stdin, book_name =>
    resolve_step books stdin book_name fun stdin1 => name_to_bookId books fuel stdin1 none

/-- Inner product of two TF-IDF rows (missing tail entries count as 0, as in
a positionally aligned sparse row). -/
def dot (u v : List ℚ) : ℚ :=
  (List.zipWith (· * ·) u v).sum

/-- The square of the cosine similarity of `u` and `v`.  For rows with
nonnegative entries this is a strictly monotone recoding of
`cosine_similarity`, and `ℚ`'s `x / 0 = 0` convention reproduces sklearn's
similarity `0` for zero rows, so sorting by `cosSq` descending produces the
same list (ties included) as sorting by the cosine. -/
def cosSq (u v : List ℚ) : ℚ :=
  (dot u v) ^ 2 / (dot u u * dot v v)

/-- The query book's TF-IDF row `tfidf_matrix[data.index.get_loc(bookId)]`. -/
def qvec (lib : Library) (bookId : String) : List ℚ :=
  lib.tfidf.getD ((ids lib).indexOf bookId) []

/-- `cosine_similarity(tfidf_matrix[get_loc(bookId)], tfidf_matrix)[0]`,
recoded through `cosSq`: one score per catalog row. -/
def similarity_scores (lib : Library) (bookId : String) : List ℚ :=
  lib.tfidf.map fun v => cosSq (qvec lib bookId) v

/-- The comparison of `sorted(similar_books, key=lambda x: x[1],
reverse=True)`: descending in the second (score) component. -/
def simDesc (a b : Nat × ℚ) : Prop :=
  b.2 ≤ a.2

instance : DecidableRel simDesc := fun a b =>
  inferInstanceAs (Decidable (b.2 ≤ a.2))

instance : IsTotal (Nat × ℚ) simDesc :=
  ⟨fun a b => le_total b.2 a.2⟩

instance : IsTrans (Nat × ℚ) simDesc :=
  ⟨fun _ _ _ hab hbc => le_trans hbc hab⟩

/-- `sorted(list(enumerate(similarity_scores[0])), key=lambda x: x[1],
reverse=True)`: a stable descending sort of the (row, score) pairs. -/
def sorted_similar_books (lib : Library) (bookId : String) : List (Nat × ℚ) :=
  List.insertionSort simDesc (similarity_scores lib bookId).enum

/-- The identifiers at positions `a, a+1, ..., a+k-1` of the sorted ranking
(`data.iloc[sorted_similar_books[i][0]].name` collected over the slice). -/
def sliceIds (lib : Library) (bookId : String) (a k : Nat) : List String :=
  (((sorted_similar_books lib bookId).drop a).take k).map fun p => (ids lib).getD p.1 ""

/-- `similar_summary(bookId, k)`: ranking positions `1..k`.  An unknown
`bookId` makes `data.index.get_loc` raise `KeyError`; a catalog with fewer
than `k+1` rows makes `sorted_similar_books[i]` raise `IndexError` before
anything is returned (for `k = 0` the `range(1, 1)` loop body never runs). -/
def similar_summary (lib : Library) (bookId : String) (k : Nat) : Except PyErr (List String) :=
  if bookId ∈ ids lib then
    if k = 0 ∨ k + 1 ≤ (sorted_similar_books lib bookId).length then
      .ok (sliceIds lib bookId 1 k)
    else .error .indexError
  else .error .keyError

/-- `similar_genre(bookId, k)`: the *same* ranking over the *same*
description TF-IDF matrix, positions `k+1..2k` (for `k = 0` the
`range(1, 1)` loop body never runs). -/
def similar_genre (lib : Library) (bookId : String) (k : Nat) : Except PyErr (List String) :=
  if bookId ∈ ids lib then
    if k = 0 ∨ 2 * k + 1 ≤ (sorted_similar_books lib bookId).length then
      .ok (sliceIds lib bookId (k + 1) k)
    else .error .indexError
  else .error .keyError

/-- The collection bound to `books` in `recommend_books`: a list for the two
explicit modes, a Python `set` (modelled as a `Finset`, i.e. deduplicated and
unordered) for the combined mode. -/
inductive Books where
  | list (l : List String)
  | set (s : Finset String)
deriving DecidableEq

/-- `recommend_books(book_name, type, k)`: resolve the name (console output
is the first component), then branch on `type`.  A failed resolution leaves
`bookId = None`, which `data.index.get_loc` rejects with `KeyError`; a
truthy `type` other than `'summary'`/`'genres'` leaves `books` unassigned
and `print_book_details(books)` raises `UnboundLocalError`.  (Python falsy
values for `type` are modelled as `none` and `some ""`.)  The second
component is the collection handed to `print_book_details`, whose
display-only side effects are outside this model. -/
def recommend_books (lib : Library) (fuel : Nat) (stdin : List String)
    (book_name : Option String) (type : Option String) (k : Nat) :
    List String × Except PyErr Books :=
  let r := name_to_bookId lib.books fuel stdin book_name
  let result : Except PyErr Books :=
    if type = some "summary" then
      ((match r.1 with
        | none => .error .keyError
        | some bid => similar_summary lib bid k) : Except PyErr (List String)).map Books.list
    else if type = some "genres" then
      ((match r.1 with
        | none => .error .keyError
        | some bid => similar_genre lib bid k) : Except PyErr (List String)).map Books.list
    else if type = none ∨ type = some "" then
      match r.1 with
      | none => .error .keyError
      | some bid =>
        match similar_summary lib bid k, similar_genre lib bid k with
        | .ok l1, .ok l2 => .ok (.set (l1 ++ l2).toFinset)
        | .error e, _ => .error e
        | .ok _, .error e => .error e
    else .error .unboundLocalError
  (r.2, result)

/-! ### Concrete fixtures used by witnesses and counterexamples -/

instance : DecidableEq (Except PyErr (List String)) := fun a b =>
  match a, b with
  | .ok x, .ok y => if h : x = y then isTrue (by rw [h]) else isFalse (by simp [h])
  | .error x, .error y => if h : x = y then isTrue (by rw [h]) else isFalse (by simp [h])
  | .ok _, .error _ => isFalse (by simp)
  | .error _, .ok _ => isFalse (by simp)

instance : DecidableEq (Except PyErr Books) := fun a b =>
  match a, b with
  | .ok x, .ok y => if h : x = y then isTrue (by rw [h]) else isFalse (by simp [h])
  | .error x, .error y => if h : x = y then isTrue (by rw [h]) else isFalse (by simp [h])
  | .ok _, .error _ => isFalse (by simp)
  | .error _, .ok _ => isFalse (by simp)

/-- A three-record library with pairwise non-parallel description vectors. -/
def libW : Library :=
  ⟨[⟨"b0", "a0", "t0", "4.0", "d0", "i0", "g0", "c0"⟩,
    ⟨"b1", "a1", "t1", "4.1", "d1", "i1", "g1", "c1"⟩,
    ⟨"b2", "a2", "t2", "4.2", "d2", "i2", "g2", "c2"⟩],
   [[1, 0], [0, 1], [1, 1]]⟩

/-- A three-record library whose first two records share the description
`"d0"`, so the TF-IDF vectorizer gives them identical rows. -/
def lib3cex : Library :=
  ⟨[⟨"b0", "a0", "t0", "4.0", "d0", "i0", "g0", "c0"⟩,
    ⟨"b1", "a1", "t1", "4.1", "d0", "i1", "g1", "c1"⟩,
    ⟨"b2", "a2", "t2", "4.2", "d2", "i2", "g2", "c2"⟩],
   [[1, 0], [1, 0], [0, 1]]⟩

/-- A two-record library, for the out-of-range claims. -/
def lib2w : Library :=
  ⟨[⟨"b0", "a0", "t0", "4.0", "d0", "i0", "g0", "c0"⟩,
    ⟨"b1", "a1", "t1", "4.1", "d1", "i1", "g1", "c1"⟩],
   [[1], [1]]⟩

/-- Two titles both containing the query `"ab"`, neither equal to it. -/
def cat4 : List Book :=
  [⟨"b0", "a0", "abx", "4.0", "d0", "i0", "g0", "c0"⟩,
   ⟨"b1", "a1", "aby", "4.1", "d1", "i1", "g1", "c1"⟩]

/-- A catalog where the exactly matching title `"ab"` sits after a longer
title containing it. -/
def cat3 : List Book :=
  [⟨"b0", "a0", "xab", "4.0", "d0", "i0", "g0", "c0"⟩,
   ⟨"b1", "a1", "ab", "4.1", "d1", "i1", "g1", "c1"⟩]

/-- A one-record catalog with title `"ab"`. -/
def cat1 : List Book :=
  [⟨"b0", "a0", "ab", "4.0", "d0", "i0", "g0", "c0"⟩]

/-- A raw row missing only the identifier. -/
def rowNoId : RawRow :=
  ⟨none, some "a", some "t", some "4.0", some "d", some "i", some "g", some "c"⟩

/-- A fully populated raw row. -/
def rowFull : RawRow :=
  ⟨some "b", some "a", some "t", some "4.0", some "d", some "i", some "g", some "c"⟩

/-! ### String lemmas: `lower()` is idempotent, a string contains itself -/

theorem toNat_ofNat_valid (n : Nat) (h : n.isValidChar) : (Char.ofNat n).toNat = n := by
  rw [Char.ofNat, dif_pos h]
  rfl

theorem charLower_of_upper (c : Char) (h : 65 ≤ c.toNat ∧ c.toNat ≤ 90) :
    charLower c = Char.ofNat (c.toNat + 32) := by
  simp only [charLower, if_pos h]

theorem charLower_of_not_upper (c : Char) (h : ¬(65 ≤ c.toNat ∧ c.toNat ≤ 90)) :
    charLower c = c := by
  simp only [charLower, if_neg h]

theorem charLower_charLower (c : Char) : charLower (charLower c) = charLower c := by
  by_cases h : 65 ≤ c.toNat ∧ c.toNat ≤ 90
  · rw [charLower_of_upper c h]
    have hv : (c.toNat + 32).isValidChar := Or.inl (by omega)
    apply charLower_of_not_upper
    rw [toNat_ofNat_valid _ hv]
    omega
  · rw [charLower_of_not_upper c h]
    exact charLower_of_not_upper c h

theorem lowerStr_lowerStr (s : String) : lowerStr (lowerStr s) = lowerStr s := by
  show String.mk ((s.data.map charLower).map charLower) = String.mk (s.data.map charLower)
  rw [List.map_map]
  have : charLower ∘ charLower = charLower := funext charLower_charLower
  rw [this]

theorem isPrefixOf_self (l : List Char) : l.isPrefixOf l = true := by
  induction l with
  | nil => rfl
  | cons a t ih => simp [List.isPrefixOf, ih]

theorem isSubOf_self (l : List Char) : isSubOf l l = true := by
  cases l with
  | nil => rfl
  | cons a t => simp [isSubOf, isPrefixOf_self]

theorem substrLower_of_lowerStr_eq {q t : String} (h : lowerStr t = lowerStr q) :
    substrLower q t = true := by
  simp only [substrLower, h]
  exact isSubOf_self _

theorem substrLower_lowerStr (q t : String) : substrLower (lowerStr q) t = substrLower q t := by
  simp only [substrLower, lowerStr_lowerStr]

/-! ### Resolver lemmas -/

theorem correct_name_fst_eq_ret0_iff (books : List Book) (q : String) :
    (correct_name books q).1 = CNRes.ret0 ↔
      q ∉ (books.map fun b => lowerStr b.title) ∧
        (books.filter fun b => substrLower q b.title) = [] := by
  rw [correct_name]
  by_cases hmem : q ∈ books.map fun b => lowerStr b.title
  · rw [if_pos hmem]
    simp [hmem]
  · rw [if_neg hmem]
    cases hf : books.filter fun b => substrLower q b.title with
    | nil =>
      have : get_possible_books books q = [] := by
        simp [get_possible_books, hf]
      rw [this]
      simp [hmem]
    | cons b rest =>
      have : get_possible_books books q = b.title :: rest.map Book.title := by
        simp [get_possible_books, hf]
      rw [this]
      cases rest with
      | nil => simp
      | cons c cs => simp

theorem correct_name_ret0 (books : List Book) (q : String)
    (hmem : q ∉ books.map fun b => lowerStr b.title)
    (hzero : (books.filter fun b => substrLower q b.title) = []) :
    correct_name books q = (.ret0, ["Book not found!"]) := by
  rw [correct_name, if_neg hmem]
  have : get_possible_books books q = [] := by
    simp [get_possible_books, hzero]
  rw [this]

/-- The Python return value of `name_to_bookId` on a provided, non-empty
query: the identifier of the first row whose title contains the (lowered)
query, or `None` when there is no such row. -/
theorem resolve_step_eq_core (books : List Book) (stdin : List String)
    (recur : List String → Option String × List String) (q : String) (hq : q ≠ "") :
    resolve_step books stdin (some q) recur = resolve_core books q stdin recur := by
  rw [resolve_step, if_neg hq]

theorem resolve_core_fst (books : List Book) (stdin1 : List String)
    (recur : List String → Option String × List String) (q : String) :
    (resolve_core books q stdin1 recur).1 =
      ((books.filter fun b => substrLower q b.title).head?).map Book.bookId := by
  have hrw : (fun b : Book => substrLower (lowerStr q) b.title) =
      fun b : Book => substrLower q b.title :=
    funext fun b => substrLower_lowerStr q b.title
  simp only [resolve_core, hrw]
  by_cases h0 : (correct_name books (lowerStr q)).1 = CNRes.ret0
  · rw [if_pos h0]
    have hzero := ((correct_name_fst_eq_ret0_iff books (lowerStr q)).1 h0).2
    simp only [substrLower_lowerStr] at hzero
    rw [hzero]
    rfl
  · rw [if_neg h0]
    cases hf : books.filter fun b => substrLower q b.title with
    | nil => rfl
    | cons b rest => rfl

theorem resolve_step_fst (books : List Book) (stdin : List String)
    (recur : List String → Option String × List String) (q : String) (hq : q ≠ "") :
    (resolve_step books stdin (some q) recur).1 =
      ((books.filter fun b => substrLower q b.title).head?).map Book.bookId := by
  rw [resolve_step_eq_core books stdin recur q hq]
  exact resolve_core_fst books stdin recur q

theorem name_to_bookId_fst (books : List Book) (fuel : Nat) (stdin : List String)
    (q : String) (hq : q ≠ "") :
    (name_to_bookId books fuel stdin (some q)).1 =
      ((books.filter fun b => substrLower q b.title).head?).map Book.bookId := by
  cases fuel with
  | zero => exact resolve_step_fst books stdin _ q hq
  | succ fuel => exact resolve_step_fst books stdin _ q hq

/-! ### Similarity-ranking lemmas -/

theorem cosSq_self {u : List ℚ} (hu : dot u u ≠ 0) : cosSq u u = 1 := by
  rw [cosSq, pow_two, div_self (mul_ne_zero hu hu)]

theorem length_sorted_similar (lib : Library) (bookId : String) :
    (sorted_similar_books lib bookId).length = lib.tfidf.length := by
  rw [sorted_similar_books, List.length_insertionSort, List.enum_length,
    similarity_scores, List.length_map]

theorem mem_sorted_similar {lib : Library} {bookId : String} {p : Nat × ℚ}
    (hp : p ∈ sorted_similar_books lib bookId) :
    p.1 < lib.tfidf.length ∧ p.2 = cosSq (qvec lib bookId) (lib.tfidf.getD p.1 []) := by
  rw [sorted_similar_books, List.mem_insertionSort, List.mem_enum_iff_get?,
    similarity_scores, List.get?_map] at hp
  cases hv : lib.tfidf.get? p.1 with
  | none => rw [hv] at hp; simp at hp
  | some v =>
    rw [hv] at hp
    simp only [Option.map_some', Option.some.injEq] at hp
    obtain ⟨hlt, -⟩ := List.get?_eq_some.1 hv
    refine ⟨hlt, ?_⟩
    rw [List.getD_eq_getD_get?, hv, Option.getD_some, hp]

theorem nodup_fst_sorted (lib : Library) (bookId : String) :
    ((sorted_similar_books lib bookId).map Prod.fst).Nodup := by
  have hperm : List.Perm ((sorted_similar_books lib bookId).map Prod.fst)
      (((similarity_scores lib bookId).enum).map Prod.fst) :=
    (List.perm_insertionSort _ _).map _
  rw [List.enum_map_fst] at hperm
  exact hperm.nodup_iff.mpr (List.nodup_range _)

theorem query_mem_enum (lib : Library) (bookId : String)
    (hloc : (ids lib).indexOf bookId < lib.tfidf.length) :
    ((ids lib).indexOf bookId, cosSq (qvec lib bookId) (qvec lib bookId)) ∈
      (similarity_scores lib bookId).enum := by
  rw [List.mem_enum_iff_get?, similarity_scores, List.get?_map]
  have hsome : lib.tfidf.get? ((ids lib).indexOf bookId) =
      some (qvec lib bookId) := by
    rw [qvec, List.getD_eq_getD_get?]
    rw [List.get?_eq_get hloc]
    rfl
  rw [hsome]
  rfl

/-- When the query row is nonzero and no other row reaches similarity 1, the
stable descending sort puts the query row (with score 1) first. -/
theorem sorted_head_loc (lib : Library) (bookId : String)
    (hloc : (ids lib).indexOf bookId < lib.tfidf.length)
    (hq : dot (qvec lib bookId) (qvec lib bookId) ≠ 0)
    (hlt : ∀ j, j < lib.tfidf.length → j ≠ (ids lib).indexOf bookId →
      cosSq (qvec lib bookId) (lib.tfidf.getD j []) < 1) :
    ∃ tl, sorted_similar_books lib bookId = ((ids lib).indexOf bookId, 1) :: tl := by
  have hqmem : ((ids lib).indexOf bookId, (1 : ℚ)) ∈ sorted_similar_books lib bookId := by
    rw [sorted_similar_books, List.mem_insertionSort]
    have := query_mem_enum lib bookId hloc
    rwa [cosSq_self hq] at this
  cases hs : sorted_similar_books lib bookId with
  | nil => rw [hs] at hqmem; cases hqmem
  | cons hd tl =>
    refine ⟨tl, ?_⟩
    have hsorted : List.Sorted simDesc (hd :: tl) := by
      rw [← hs, sorted_similar_books]
      exact List.sorted_insertionSort simDesc _
    have hhd : hd.1 < lib.tfidf.length ∧
        hd.2 = cosSq (qvec lib bookId) (lib.tfidf.getD hd.1 []) :=
      mem_sorted_similar (hs ▸ List.mem_cons_self hd tl)
    rw [hs] at hqmem
    rcases List.mem_cons.1 hqmem with heq | htl
    · rw [← heq]
    · have h1 : simDesc hd ((ids lib).indexOf bookId, (1 : ℚ)) :=
        List.rel_of_sorted_cons hsorted _ htl
      by_cases hne : hd.1 = (ids lib).indexOf bookId
      · have hone : hd.2 = 1 := by
          rw [hhd.2, hne]
          exact cosSq_self hq
        have : hd = ((ids lib).indexOf bookId, (1 : ℚ)) := by
          rw [← hne, ← hone]
        rw [this]
      · exfalso
        have hlt1 := hlt hd.1 hhd.1 hne
        rw [← hhd.2] at hlt1
        have : (1 : ℚ) ≤ hd.2 := h1
        linarith

theorem resolve_core_ambiguous (books : List Book) (stdin1 : List String)
    (recur : List String → Option String × List String) (q : String)
    (hmem : lowerStr q ∉ books.map fun b => lowerStr b.title)
    (b1 b2 : Book) (rest : List Book)
    (hm : books.filter (fun b => substrLower q b.title) = b1 :: b2 :: rest) :
    (resolve_core books q stdin1 recur).1 = some b1.bookId ∧
      ∀ t ∈ get_possible_books books (lowerStr q),
        t ∈ (resolve_core books q stdin1 recur).2 := by
  have hrw : (fun b : Book => substrLower (lowerStr q) b.title) =
      fun b : Book => substrLower q b.title :=
    funext fun b => substrLower_lowerStr q b.title
  have hgpb : get_possible_books books (lowerStr q) =
      b1.title :: b2.title :: rest.map Book.title := by
    simp [get_possible_books, hrw, hm]
  have hcn : correct_name books (lowerStr q) =
      (.ret1, ["Book not found!", "Did you mean: "] ++
        (b1.title :: b2.title :: rest.map Book.title)) := by
    rw [correct_name, if_neg hmem, hgpb]
  simp only [resolve_core, hrw, hcn, hm]
  constructor
  · rfl
  · intro t ht
    rw [hgpb] at ht
    simp only [List.mem_cons, List.mem_map] at ht
    simp [resolve_core, hrw, hcn, hm, List.mem_cons, List.mem_append]
    aesop

theorem similar_summary_eq_ok (lib : Library) (bookId : String) (k : Nat)
    (hb : bookId ∈ ids lib) (hk : k = 0 ∨ k + 1 ≤ lib.tfidf.length) :
    similar_summary lib bookId k = .ok (sliceIds lib bookId 1 k) := by
  rw [similar_summary, if_pos hb, if_pos]
  rw [length_sorted_similar]
  exact hk

theorem similar_genre_eq_ok (lib : Library) (bookId : String) (k : Nat)
    (hb : bookId ∈ ids lib) (hk : k = 0 ∨ 2 * k + 1 ≤ lib.tfidf.length) :
    similar_genre lib bookId k = .ok (sliceIds lib bookId (k + 1) k) := by
  rw [similar_genre, if_pos hb, if_pos]
  rw [length_sorted_similar]
  exact hk

theorem similar_summary_eq_error (lib : Library) (bookId : String) (k : Nat)
    (hb : bookId ∈ ids lib) (hk : ¬(k = 0 ∨ k + 1 ≤ lib.tfidf.length)) :
    similar_summary lib bookId k = .error .indexError := by
  rw [similar_summary, if_pos hb, if_neg]
  rw [length_sorted_similar]
  exact hk

theorem similar_genre_eq_error (lib : Library) (bookId : String) (k : Nat)
    (hb : bookId ∈ ids lib) (hk : ¬(k = 0 ∨ 2 * k + 1 ≤ lib.tfidf.length)) :
    similar_genre lib bookId k = .error .indexError := by
  rw [similar_genre, if_pos hb, if_neg]
  rw [length_sorted_similar]
  exact hk

/-- Positions `1..2k` of the ranking are positions `1..k` followed by
positions `k+1..2k`. -/
theorem sliceIds_append (lib : Library) (bookId : String) (k : Nat) :
    sliceIds lib bookId 1 (2 * k) = sliceIds lib bookId 1 k ++ sliceIds lib bookId (k + 1) k := by
  rw [sliceIds, sliceIds, sliceIds, ← List.map_append]
  congr 1
  rw [two_mul, List.take_add]
  congr 1
  rw [List.drop_drop, Nat.add_comm]

theorem length_sliceIds (lib : Library) (bookId : String) (a k : Nat)
    (h : a + k ≤ lib.tfidf.length) : (sliceIds lib bookId a k).length = k := by
  have hlen := length_sorted_similar lib bookId
  simp only [sliceIds, List.length_map, List.length_take, List.length_drop, hlen]
  omega

/-! ### Claim C8: the loader and missing fields -/

/-- C8 counterexample: a row whose only missing field is the identifier
(`bookId`) is *kept* by the loader (`index_col` removes `bookId` from the
columns before `dropna`, and `dropna` never inspects the index), so the
loaded catalog has 1 record although 0 input rows are fully populated. -/
theorem C8_counterexample :
    (loadData [rowNoId]).length = 1 ∧
      (List.filter fullyPopulated [rowNoId]).length = 0 := by
  decide

/-- C8 (amended): the loader drops exactly the rows missing one of the seven
non-identifier fields (author, title, rating, description, isbn, genres,
cover-image URL); every loaded record has those seven fields populated, and
the catalog size equals the number of rows in which they are all present.  A
row missing only the identifier is retained. -/
theorem C8_loader_drops_rows_missing_columns (rows : List RawRow) :
    (loadData rows).length = (rows.filter columnsPopulated).length ∧
      ∀ r ∈ loadData rows, columnsPopulated r = true := by
  constructor
  · rfl
  · intro r hr
    simp only [loadData, dropna] at hr
    exact (List.mem_filter.1 hr).2

/-- C8 witness: the amended loader property evaluated on a concrete pair of
rows (one complete, one missing its identifier only). -/
theorem C8_loader_drops_rows_missing_columns_witness :
    (loadData [rowFull, rowNoId]).length =
        (List.filter columnsPopulated [rowFull, rowNoId]).length ∧
      columnsPopulated rowNoId = true :=
  ⟨(C8_loader_drops_rows_missing_columns [rowFull, rowNoId]).1,
   (C8_loader_drops_rows_missing_columns [rowFull, rowNoId]).2 rowNoId (by decide)⟩

/-! ### Claim C7: not-found resolution -/

/-- C7: a non-empty query with no exact case-insensitive title match whose
case-insensitive substring search matches zero titles gets the not-found
outcome: `correct_name` returns the marker `0` and `name_to_bookId` returns
`None`. -/
theorem C7_not_found_returns_none (books : List Book) (fuel : Nat) (stdin : List String)
    (q : String) (hq : q ≠ "")
    (hmem : lowerStr q ∉ books.map fun b => lowerStr b.title)
    (hzero : books.filter (fun b => substrLower q b.title) = []) :
    (correct_name books (lowerStr q)).1 = CNRes.ret0 ∧
      (name_to_bookId books fuel stdin (some q)).1 = none := by
  have hrw : (fun b : Book => substrLower (lowerStr q) b.title) =
      fun b : Book => substrLower q b.title :=
    funext fun b => substrLower_lowerStr q b.title
  have hzero' : books.filter (fun b => substrLower (lowerStr q) b.title) = [] := by
    rw [hrw]
    exact hzero
  constructor
  · rw [correct_name_ret0 books (lowerStr q) hmem hzero']
  · rw [name_to_bookId_fst books fuel stdin q hq, hzero]
    rfl

/-- C7 witness: the query `"zz"` matches nothing in the one-record catalog. -/
theorem C7_not_found_returns_none_witness :
    (correct_name cat1 (lowerStr "zz")).1 = CNRes.ret0 ∧
      (name_to_bookId cat1 0 [] (some "zz")).1 = none :=
  C7_not_found_returns_none cat1 0 [] "zz" (by decide) (by decide) (by decide)

/-! ### Claim C10: out-of-range `k` raises instead of truncating -/

/-- C10: for a bookId present in the catalog, `similar_summary bookId k`
raises `IndexError` whenever the catalog has fewer than `k+1` records, and
`similar_genre bookId k` raises `IndexError` whenever it has fewer than
`2k+1` records; neither truncates to the available size. -/
theorem C10_short_catalog_raises (lib : Library) (bookId : String) (k : Nat)
    (hb : bookId ∈ ids lib) (halign : lib.books.length = lib.tfidf.length) :
    (lib.books.length < k + 1 → similar_summary lib bookId k = .error .indexError) ∧
      (lib.books.length < 2 * k + 1 → similar_genre lib bookId k = .error .indexError) := by
  have h1 : (ids lib).length = lib.books.length := List.length_map _ _
  have h2 := List.indexOf_lt_length.2 hb
  constructor
  · intro hlt
    apply similar_summary_eq_error lib bookId k hb
    intro h
    rcases h with h0 | hle
    · omega
    · omega
  · intro hlt
    apply similar_genre_eq_error lib bookId k hb
    intro h
    rcases h with h0 | hle
    · omega
    · omega

/-- C10 witness: on the two-record library, `k = 2` raises in both modes. -/
theorem C10_short_catalog_raises_witness :
    (lib2w.books.length < 2 + 1 ∧ similar_summary lib2w "b0" 2 = .error .indexError) ∧
      (lib2w.books.length < 2 * 2 + 1 ∧ similar_genre lib2w "b0" 2 = .error .indexError) :=
  ⟨⟨by decide, (C10_short_catalog_raises lib2w "b0" 2 (by decide) (by decide)).1 (by decide)⟩,
   ⟨by decide, (C10_short_catalog_raises lib2w "b0" 2 (by decide) (by decide)).2 (by decide)⟩⟩

/-! ### Claim C2: `similar_genre` is a second slice of the same ranking -/

/-- C2: `similar_genre` performs the identical `cosSq`-ranking computation
over the same description TF-IDF matrix as `similar_summary` — its result is
the slice of `sorted_similar_books` at positions `k+1..2k` (1-indexed ranks
`(k+2)`th through `(2k+1)`th), with no genre-specific vectorization anywhere
in the model — and `similar_summary bookId (2k)` equals
`similar_summary bookId k ++ similar_genre bookId k`. -/
theorem C2_genre_is_second_slice_of_summary_ranking (lib : Library) (bookId : String)
    (k : Nat) (hb : bookId ∈ ids lib) (halign : lib.books.length = lib.tfidf.length)
    (hn : 2 * k + 1 ≤ lib.books.length) :
    similar_genre lib bookId k = .ok (sliceIds lib bookId (k + 1) k) ∧
      ∃ l1 l2, similar_summary lib bookId k = .ok l1 ∧
        similar_genre lib bookId k = .ok l2 ∧
        similar_summary lib bookId (2 * k) = .ok (l1 ++ l2) := by
  have hn' : 2 * k + 1 ≤ lib.tfidf.length := by omega
  have hg := similar_genre_eq_ok lib bookId k hb (Or.inr hn')
  refine ⟨hg, sliceIds lib bookId 1 k, sliceIds lib bookId (k + 1) k,
    similar_summary_eq_ok lib bookId k hb (Or.inr (by omega)), hg, ?_⟩
  rw [similar_summary_eq_ok lib bookId (2 * k) hb (Or.inr (by omega)), sliceIds_append]

/-- C2 witness: the slice equation evaluated on the three-record library at
`k = 1`. -/
theorem C2_genre_is_second_slice_of_summary_ranking_witness :
    similar_genre libW "b0" 1 = .ok (sliceIds libW "b0" 2 1) ∧
      ∃ l1 l2, similar_summary libW "b0" 1 = .ok l1 ∧
        similar_genre libW "b0" 1 = .ok l2 ∧
        similar_summary libW "b0" 2 = .ok (l1 ++ l2) :=
  C2_genre_is_second_slice_of_summary_ranking libW "b0" 1 (by decide) (by decide) (by decide)

/-! ### Claim C3: exact case-insensitive title resolution -/

/-- C3 counterexample: the query `"AB"` matches the title `"ab"` of record
`"b1"` exactly up to case, but `name_to_bookId` returns `"b0"`, because its
final lookup is a *substring* search (`str.contains`) and the earlier title
`"xab"` also contains `"ab"`.  The claimed resolution to the exactly
matching record's identifier is therefore false. -/
theorem C3_counterexample :
    (cat3.filter fun b => lowerStr b.title == lowerStr "AB").map Book.bookId = ["b1"] ∧
      (name_to_bookId cat3 0 [] (some "AB")).1 = some "b0" := by
  decide

/-- C3 (amended): a non-empty query with an exact case-insensitive title
match resolves deterministically — but to the identifier of the *first*
record (in catalog order) whose title contains the query as a
case-insensitive substring; this is the exactly matching record only when no
earlier title contains the query. -/
theorem C3_exact_match_resolves_to_first_substring_match (books : List Book)
    (fuel : Nat) (stdin : List String) (q : String) (hq : q ≠ "")
    (b : Book) (hb : b ∈ books) (hexact : lowerStr b.title = lowerStr q) :
    ∃ b0 rest, books.filter (fun b' => substrLower q b'.title) = b0 :: rest ∧
      (name_to_bookId books fuel stdin (some q)).1 = some b0.bookId := by
  have hsub : substrLower q b.title = true := substrLower_of_lowerStr_eq hexact
  cases hf : books.filter (fun b' => substrLower q b'.title) with
  | nil =>
    exfalso
    have : b ∈ books.filter (fun b' => substrLower q b'.title) :=
      List.mem_filter.2 ⟨hb, hsub⟩
    rw [hf] at this
    cases this
  | cons b0 rest =>
    refine ⟨b0, rest, rfl, ?_⟩
    rw [name_to_bookId_fst books fuel stdin q hq, hf]
    rfl

/-- C3 witness: on a one-record catalog the exact match is also the first
substring match, and `"AB"` resolves to its identifier. -/
theorem C3_exact_match_resolves_to_first_substring_match_witness :
    ∃ b0 rest, cat1.filter (fun b' => substrLower "AB" b'.title) = b0 :: rest ∧
      (name_to_bookId cat1 0 [] (some "AB")).1 = some b0.bookId :=
  C3_exact_match_resolves_to_first_substring_match cat1 0 []
    "AB" (by decide) ⟨"b0", "a0", "ab", "4.0", "d0", "i0", "g0", "c0"⟩ (by decide) (by decide)

/-! ### Claim C4: ambiguous resolution -/

/-- C4 counterexample: the query `"ab"` has no exact match in `cat4` and its
substring search matches two titles, yet `name_to_bookId` *returns the
identifier `"b0"`*: after printing the candidates and discarding the result
of its interactive re-prompt, it auto-selects the first substring match, so
"no catalog identifier is auto-selected" is false. -/
theorem C4_counterexample :
    lowerStr "ab" ∉ cat4.map (fun b => lowerStr b.title) ∧
      (cat4.filter fun b => substrLower "ab" b.title).length = 2 ∧
      (name_to_bookId cat4 0 [] (some "ab")).1 = some "b0" := by
  decide

/-- C4 (amended): on an ambiguous query (no exact match, at least two
substring matches), every matched title is printed (the "ambiguous" outcome
is exposed on the console), but resolution does not stop there: after a
discarded interactive re-prompt the identifier of the *first* matched record
is auto-selected and returned. -/
theorem C4_ambiguous_exposes_titles_then_autoselects_first (books : List Book)
    (fuel : Nat) (stdin : List String) (q : String) (hq : q ≠ "")
    (hmem : lowerStr q ∉ books.map fun b => lowerStr b.title)
    (b1 b2 : Book) (rest : List Book)
    (hm : books.filter (fun b => substrLower q b.title) = b1 :: b2 :: rest) :
    (∀ t ∈ get_possible_books books (lowerStr q),
        t ∈ (name_to_bookId books fuel stdin (some q)).2) ∧
      (name_to_bookId books fuel stdin (some q)).1 = some b1.bookId := by
  cases fuel with
  | zero =>
    rw [show name_to_bookId books 0 stdin (some q) =
        resolve_step books stdin (some q) (fun _ => (none, ["Invalid input."])) from rfl,
      resolve_step_eq_core books stdin _ q hq]
    have h := resolve_core_ambiguous books stdin
      (fun _ => (none, ["Invalid input."])) q hmem b1 b2 rest hm
    exact ⟨h.2, h.1⟩
  | succ fuel =>
    rw [show name_to_bookId books (fuel + 1) stdin (some q) =
        resolve_step books stdin (some q)
          (fun stdin1 => name_to_bookId books fuel stdin1 none) from rfl,
      resolve_step_eq_core books stdin _ q hq]
    have h := resolve_core_ambiguous books stdin
      (fun stdin1 => name_to_bookId books fuel stdin1 none) q hmem b1 b2 rest hm
    exact ⟨h.2, h.1⟩

/-- C4 witness: on `cat4` with query `"ab"`, both matched titles appear in
the console output and the first match `"b0"` is returned. -/
theorem C4_ambiguous_exposes_titles_then_autoselects_first_witness :
    (∀ t ∈ get_possible_books cat4 (lowerStr "ab"),
        t ∈ (name_to_bookId cat4 0 [] (some "ab")).2) ∧
      (name_to_bookId cat4 0 [] (some "ab")).1 =
        some (Book.bookId ⟨"b0", "a0", "abx", "4.0", "d0", "i0", "g0", "c0"⟩) :=
  C4_ambiguous_exposes_titles_then_autoselects_first cat4 0 [] "ab" (by decide) (by decide)
    ⟨"b0", "a0", "abx", "4.0", "d0", "i0", "g0", "c0"⟩
    ⟨"b1", "a1", "aby", "4.1", "d1", "i1", "g1", "c1"⟩ [] (by decide)

/-! ### Claim C1: `similar_summary` and the query's own identifier -/

/-- C1 counterexample: in `lib3cex` the first two records have identical
description vectors, so querying `"b1"` (position 1) finds the tied record
at position 0 ranked first by the stable sort; position 1 — the query book
itself — is then rank 2, and `similar_summary "b1" 1` *returns the query's
own identifier*, refuting "the returned list never contains bookId". -/
theorem C1_counterexample :
    1 + 1 ≤ lib3cex.books.length ∧ similar_summary lib3cex "b1" 1 = .ok ["b1"] := by
  constructor
  · decide
  · have hloc : List.indexOf "b1" ["b0", "b1", "b2"] = 1 := by decide
    simp only [similar_summary, sorted_similar_books, similarity_scores, qvec, sliceIds, lib3cex,
      ids, List.map_cons, List.map_nil, hloc]
    norm_num [cosSq, dot, List.insertionSort, List.orderedInsert, simDesc, List.enum,
      List.enumFrom, hloc, List.mem_cons, List.getElem_cons_succ, List.getElem_cons_zero]
    decide

/-- C1 (amended): when the catalog has at least `k+1` records and distinct
identifiers, `similar_summary bookId k` returns exactly the `k` identifiers
at positions `1..k` (ranks 2nd through `(k+1)`th) of the descending cosine
ranking; *provided additionally* that the query's description vector is
nonzero and no other record's vector attains squared cosine similarity 1
with it (no duplicate/parallel description), the top rank is the query book
itself and the returned list never contains `bookId`. -/
theorem C1_summary_slice_excludes_query (lib : Library) (bookId : String) (k : Nat)
    (hb : bookId ∈ ids lib) (halign : lib.books.length = lib.tfidf.length)
    (hnd : (ids lib).Nodup) (hk : k + 1 ≤ lib.books.length)
    (hq : dot (qvec lib bookId) (qvec lib bookId) ≠ 0)
    (hlt : ∀ j, j < lib.tfidf.length → j ≠ (ids lib).indexOf bookId →
      cosSq (qvec lib bookId) (lib.tfidf.getD j []) < 1) :
    similar_summary lib bookId k = .ok (sliceIds lib bookId 1 k) ∧
      (sliceIds lib bookId 1 k).length = k ∧
      bookId ∉ sliceIds lib bookId 1 k := by
  have hlen_ids : (ids lib).length = lib.books.length := List.length_map _ _
  have hk' : k + 1 ≤ lib.tfidf.length := by omega
  have hloc_ids : (ids lib).indexOf bookId < (ids lib).length :=
    List.indexOf_lt_length.2 hb
  have hloc : (ids lib).indexOf bookId < lib.tfidf.length := by omega
  obtain ⟨tl, htl⟩ := sorted_head_loc lib bookId hloc hq hlt
  refine ⟨similar_summary_eq_ok lib bookId k hb (Or.inr hk'),
    length_sliceIds lib bookId 1 k (by omega), ?_⟩
  intro hmem_slice
  rw [sliceIds, htl] at hmem_slice
  simp only [List.drop_succ_cons, List.drop_zero] at hmem_slice
  obtain ⟨p, hp_mem, hp_eq⟩ := List.mem_map.1 hmem_slice
  have hp_tl : p ∈ tl := List.take_subset _ _ hp_mem
  have hp_sorted : p ∈ sorted_similar_books lib bookId := by
    rw [htl]
    exact List.mem_cons_of_mem _ hp_tl
  have hp_lt : p.1 < lib.tfidf.length := (mem_sorted_similar hp_sorted).1
  have hfst := nodup_fst_sorted lib bookId
  rw [htl] at hfst
  simp only [List.map_cons, List.nodup_cons] at hfst
  have hp_ne : p.1 ≠ (ids lib).indexOf bookId := by
    intro heq
    exact hfst.1 (heq ▸ List.mem_map_of_mem Prod.fst hp_tl)
  have hp_len : p.1 < (ids lib).length := by omega
  rw [List.getD_eq_getElem _ _ hp_len] at hp_eq
  have hgetloc : (ids lib)[(ids lib).indexOf bookId] = bookId :=
    List.getElem_indexOf hloc_ids
  rw [← hgetloc] at hp_eq
  exact hp_ne ((List.Nodup.getElem_inj_iff hnd).1 hp_eq)

/-- C1 witness: the amended property evaluated on the three-record library
`libW` (pairwise non-parallel rows) at query `"b0"`, `k = 1`. -/
theorem C1_summary_slice_excludes_query_witness :
    similar_summary libW "b0" 1 = .ok (sliceIds libW "b0" 1 1) ∧
      (sliceIds libW "b0" 1 1).length = 1 ∧
      "b0" ∉ sliceIds libW "b0" 1 1 := by
  have hqv : qvec libW "b0" = [1, 0] := by decide
  have h0 : List.indexOf "b0" (ids libW) = 0 := by decide
  have hv1 : libW.tfidf.getD 1 [] = [0, 1] := by decide
  have hv2 : libW.tfidf.getD 2 [] = [1, 1] := by decide
  refine C1_summary_slice_excludes_query libW "b0" 1 (by decide) (by decide) (by decide)
    (by decide) ?_ ?_
  · rw [hqv]
    norm_num [dot]
  · intro j hj hne
    rw [h0] at hne
    have hj3 : j < 3 := hj
    rw [hqv]
    interval_cases j
    · exact absurd rfl hne
    · rw [hv1]
      norm_num [cosSq, dot]
    · rw [hv2]
      norm_num [cosSq, dot]

/-! ### `recommend_books` unfolding lemmas -/

theorem recommend_books_snd_none_mode (lib : Library) (fuel : Nat) (stdin : List String)
    (book_name : Option String) (k : Nat) :
    (recommend_books lib fuel stdin book_name none k).2 =
      match (name_to_bookId lib.books fuel stdin book_name).1 with
      | none => .error .keyError
      | some bid =>
        match similar_summary lib bid k, similar_genre lib bid k with
        | .ok l1, .ok l2 => .ok (.set (l1 ++ l2).toFinset)
        | .error e, _ => .error e
        | .ok _, .error e => .error e := rfl

theorem recommend_books_snd_empty_mode (lib : Library) (fuel : Nat) (stdin : List String)
    (book_name : Option String) (k : Nat) :
    (recommend_books lib fuel stdin book_name (some "") k).2 =
      match (name_to_bookId lib.books fuel stdin book_name).1 with
      | none => .error .keyError
      | some bid =>
        match similar_summary lib bid k, similar_genre lib bid k with
        | .ok l1, .ok l2 => .ok (.set (l1 ++ l2).toFinset)
        | .error e, _ => .error e
        | .ok _, .error e => .error e := rfl

theorem recommend_books_snd_summary_mode (lib : Library) (fuel : Nat) (stdin : List String)
    (book_name : Option String) (k : Nat) :
    (recommend_books lib fuel stdin book_name (some "summary") k).2 =
      ((match (name_to_bookId lib.books fuel stdin book_name).1 with
        | none => .error .keyError
        | some bid => similar_summary lib bid k) : Except PyErr (List String)).map Books.list :=
  rfl

theorem recommend_books_snd_genres_mode (lib : Library) (fuel : Nat) (stdin : List String)
    (book_name : Option String) (k : Nat) :
    (recommend_books lib fuel stdin book_name (some "genres") k).2 =
      ((match (name_to_bookId lib.books fuel stdin book_name).1 with
        | none => .error .keyError
        | some bid => similar_genre lib bid k) : Except PyErr (List String)).map Books.list :=
  rfl

theorem recommend_books_snd_unknown_mode (lib : Library) (fuel : Nat) (stdin : List String)
    (book_name : Option String) (type : Option String) (k : Nat)
    (h1 : type ≠ some "summary") (h2 : type ≠ some "genres")
    (h3 : ¬(type = none ∨ type = some "")) :
    (recommend_books lib fuel stdin book_name type k).2 = .error .unboundLocalError := by
  simp only [recommend_books]
  rw [if_neg h1, if_neg h2, if_neg h3]

theorem similar_summary_not_unbound (lib : Library) (bookId : String) (k : Nat) :
    similar_summary lib bookId k ≠ .error .unboundLocalError := by
  rw [similar_summary]
  split
  · split
    · simp
    · simp
  · simp

theorem similar_genre_not_unbound (lib : Library) (bookId : String) (k : Nat) :
    similar_genre lib bookId k ≠ .error .unboundLocalError := by
  rw [similar_genre]
  split
  · split
    · simp
    · simp
  · simp

theorem map_list_not_unbound {x : Except PyErr (List String)}
    (hx : x ≠ .error .unboundLocalError) : x.map Books.list ≠ .error .unboundLocalError := by
  cases x with
  | ok l => simp [Except.map]
  | error e => simpa [Except.map] using hx

/-! ### Claim C5: combined mode is a deduplicated set union -/

/-- C5: with `type` unset and a query that resolves to a catalog `bookId`
(catalog size at least `2k+1`), the combined mode computes
`set(similar_summary(bookId, k) + similar_genre(bookId, k))`: a `Finset`
(deduplicated, unordered — Python set semantics) equal to the union of the
two result sets, of size at most `2k`. -/
theorem C5_combined_mode_is_dedup_union (lib : Library) (fuel : Nat) (stdin : List String)
    (book_name : Option String) (bookId : String) (k : Nat)
    (hres : (name_to_bookId lib.books fuel stdin book_name).1 = some bookId)
    (hb : bookId ∈ ids lib) (halign : lib.books.length = lib.tfidf.length)
    (hn : 2 * k + 1 ≤ lib.books.length) :
    ∃ l1 l2, similar_summary lib bookId k = .ok l1 ∧ similar_genre lib bookId k = .ok l2 ∧
      (recommend_books lib fuel stdin book_name none k).2 =
        .ok (.set (l1.toFinset ∪ l2.toFinset)) ∧
      (l1.toFinset ∪ l2.toFinset).card ≤ 2 * k := by
  have hn' : 2 * k + 1 ≤ lib.tfidf.length := by omega
  have hs := similar_summary_eq_ok lib bookId k hb (Or.inr (by omega))
  have hg := similar_genre_eq_ok lib bookId k hb (Or.inr hn')
  refine ⟨_, _, hs, hg, ?_, ?_⟩
  · rw [recommend_books_snd_none_mode]
    simp only [hres, hs, hg, List.toFinset_append]
  · apply le_trans (Finset.card_union_le _ _)
    have h1 : (sliceIds lib bookId 1 k).length = k :=
      length_sliceIds lib bookId 1 k (by omega)
    have h2 : (sliceIds lib bookId (k + 1) k).length = k :=
      length_sliceIds lib bookId (k + 1) k (by omega)
    have c1 := List.toFinset_card_le (sliceIds lib bookId 1 k)
    have c2 := List.toFinset_card_le (sliceIds lib bookId (k + 1) k)
    omega

/-- C5 witness: combined-mode union on the three-record library, query
`"t0"` resolving to `"b0"`, `k = 1`. -/
theorem C5_combined_mode_is_dedup_union_witness :
    ∃ l1 l2, similar_summary libW "b0" 1 = .ok l1 ∧ similar_genre libW "b0" 1 = .ok l2 ∧
      (recommend_books libW 0 [] (some "t0") none 1).2 =
        .ok (.set (l1.toFinset ∪ l2.toFinset)) ∧
      (l1.toFinset ∪ l2.toFinset).card ≤ 2 * 1 :=
  C5_combined_mode_is_dedup_union libW 0 [] (some "t0") "b0" 1 (by decide) (by decide)
    (by decide) (by decide)

/-! ### Claim C6: failed resolution does not abort silently -/

/-- C6 counterexample: the query `"zzz"` resolves to nothing (`None`), yet
`recommend_books` does not return silently: `None` is fed straight into the
similarity lookup, which raises `KeyError` (an unhandled exception), so the
claimed "no error value is surfaced" is false. -/
theorem C6_counterexample :
    (name_to_bookId libW.books 0 [] (some "zzz")).1 = none ∧
      (recommend_books libW 0 [] (some "zzz") none 1).2 = .error .keyError := by
  decide

/-- C6 (amended): resolution failure does not abort the recommendation
silently.  A not-found query leaves `bookId = None` and the call then raises
for every mode (`KeyError` from `data.index.get_loc(None)` in the similarity
lookup, or `UnboundLocalError` for an unknown truthy mode); an ambiguous
query does not abort at all — the first substring match is auto-selected and
the recommendation proceeds with it. -/
theorem C6_resolution_failure_raises_or_proceeds (lib : Library) (fuel : Nat)
    (stdin : List String) (q : String) (type : Option String) (k : Nat) (hq : q ≠ "") :
    (lib.books.filter (fun b => substrLower q b.title) = [] →
      ∃ e, (recommend_books lib fuel stdin (some q) type k).2 = .error e) ∧
    (∀ b1 b2 rest, lib.books.filter (fun b => substrLower q b.title) = b1 :: b2 :: rest →
      (recommend_books lib fuel stdin (some q) (some "summary") k).2 =
        (similar_summary lib b1.bookId k).map Books.list) := by
  constructor
  · intro hzero
    have hval : (name_to_bookId lib.books fuel stdin (some q)).1 = none := by
      rw [name_to_bookId_fst lib.books fuel stdin q hq, hzero]
      rfl
    by_cases h1 : type = some "summary"
    · subst h1
      rw [recommend_books_snd_summary_mode, hval]
      exact ⟨.keyError, rfl⟩
    by_cases h2 : type = some "genres"
    · subst h2
      rw [recommend_books_snd_genres_mode, hval]
      exact ⟨.keyError, rfl⟩
    by_cases h3 : type = none
    · subst h3
      rw [recommend_books_snd_none_mode, hval]
      exact ⟨.keyError, rfl⟩
    by_cases h4 : type = some ""
    · subst h4
      rw [recommend_books_snd_empty_mode, hval]
      exact ⟨.keyError, rfl⟩
    · exact ⟨.unboundLocalError,
        recommend_books_snd_unknown_mode lib fuel stdin (some q) type k h1 h2
          (by simp [h3, h4])⟩
  · intro b1 b2 rest hm
    have hval : (name_to_bookId lib.books fuel stdin (some q)).1 = some b1.bookId := by
      rw [name_to_bookId_fst lib.books fuel stdin q hq, hm]
      rfl
    rw [recommend_books_snd_summary_mode, hval]

/-- C6 witness: the not-found branch of the amended claim evaluated on the
three-record library with query `"zzz"`, combined mode, `k = 1`. -/
theorem C6_resolution_failure_raises_or_proceeds_witness :
    ∃ e, (recommend_books libW 0 [] (some "zzz") none 1).2 = .error e :=
  (C6_resolution_failure_raises_or_proceeds libW 0 [] "zzz" none 1 (by decide)).1 (by decide)

/-! ### Claim C9: accepted modes of `recommend_books` -/

/-- C9: a truthy `type` other than `'summary'` and `'genres'` assigns no
recommendation list, and the call fails with `UnboundLocalError` at
`print_book_details(books)`; the accepted modes — the ones that can never
produce `UnboundLocalError` — are exactly `'summary'`, `'genres'`, and the
falsy values (`None`, `""`). -/
theorem C9_unknown_truthy_mode_is_unbound (lib : Library) (fuel : Nat) (stdin : List String)
    (book_name : Option String) (type : Option String) (k : Nat) :
    (type ≠ some "summary" → type ≠ some "genres" → type ≠ none → type ≠ some "" →
      (recommend_books lib fuel stdin book_name type k).2 = .error .unboundLocalError) ∧
    ((type = some "summary" ∨ type = some "genres" ∨ type = none ∨ type = some "") →
      (recommend_books lib fuel stdin book_name type k).2 ≠ .error .unboundLocalError) := by
  constructor
  · intro h1 h2 h3 h4
    exact recommend_books_snd_unknown_mode lib fuel stdin book_name type k h1 h2
      (by simp [h3, h4])
  · intro h
    have hcomb : ∀ bid? : Option String,
        (match bid? with
         | none => (.error .keyError : Except PyErr Books)
         | some bid =>
           match similar_summary lib bid k, similar_genre lib bid k with
           | .ok l1, .ok l2 => .ok (.set (l1 ++ l2).toFinset)
           | .error e, _ => .error e
           | .ok _, .error e => .error e) ≠ .error .unboundLocalError := by
      intro bid?
      cases bid? with
      | none => simp
      | some bid =>
        cases hs : similar_summary lib bid k with
        | ok l1 =>
          cases hg : similar_genre lib bid k with
          | ok l2 => simp [hs, hg]
          | error e =>
            have hne := similar_genre_not_unbound lib bid k
            rw [hg] at hne
            simp only [hs, hg]
            simpa using hne
        | error e =>
          have hne := similar_summary_not_unbound lib bid k
          rw [hs] at hne
          simp only [hs]
          simpa using hne
    rcases h with h | h | h | h
    · subst h
      rw [recommend_books_snd_summary_mode]
      apply map_list_not_unbound
      cases hbid : (name_to_bookId lib.books fuel stdin book_name).1 with
      | none => simp
      | some bid => exact similar_summary_not_unbound lib bid k
    · subst h
      rw [recommend_books_snd_genres_mode]
      apply map_list_not_unbound
      cases hbid : (name_to_bookId lib.books fuel stdin book_name).1 with
      | none => simp
      | some bid => exact similar_genre_not_unbound lib bid k
    · subst h
      rw [recommend_books_snd_none_mode]
      exact hcomb _
    · subst h
      rw [recommend_books_snd_empty_mode]
      exact hcomb _

/-- C9 witness: the truthy mode `'author'` produces `UnboundLocalError`, and
the accepted mode `'summary'` does not, on a concrete call. -/
theorem C9_unknown_truthy_mode_is_unbound_witness :
    (recommend_books libW 0 [] (some "t0") (some "author") 5).2 =
        .error .unboundLocalError ∧
      (recommend_books libW 0 [] (some "t0") (some "summary") 5).2 ≠
        .error .unboundLocalError :=
  ⟨(C9_unknown_truthy_mode_is_unbound libW 0 [] (some "t0") (some "author") 5).1
      (by decide) (by decide) (by decide) (by decide),
   (C9_unknown_truthy_mode_is_unbound libW 0 [] (some "t0") (some "summary") 5).2
      (Or.inl rfl)⟩
